import Mathlib

/-!
Verification of the multiplayer Pong reconciliation core.

This file shallowly embeds the parts of the game engine that the claims
C1-C10 are about: the `Ball`, `Paddle` and `Game` classes, the
`SyncService.needsReconciliation` test, and the `GameManager` network
receive handlers.

Modelling conventions:
- IEEE doubles are idealised as real numbers (`ℝ`); `Math.sqrt` is
  `Real.sqrt`, `Math.abs` is `|·|`, `Math.min`/`Math.max` are `min`/`max`,
  `Math.pow` is `Real.rpow`.
- Every call to `Math.random()` is modelled by an explicit argument (a
  `Bool` for a coin flip such as the serve side, an `ℝ` in `[0,1]` for a
  unit draw such as the serve jitter), threaded through the functions that
  consume it.
- `setTimeout`/`clearTimeout` handles are modelled by a Boolean
  `countdownTimeoutPending` flag; the asynchronous firing of a timer is an
  event outside the synchronous call semantics embedded here.
- Optional (possibly `undefined`) fields of wire records are `Option`;
  JavaScript truthiness of a numeric timestamp is `≠ 0`; a `winner` that is
  either `undefined` or `null` is `none`.
- Audio, particle effects, rendering, console logging, and the power-up
  manager are external collaborators that no claim constrains; their calls
  are omitted.  Fields of the `Ball` class that no embedded operation reads
  (`maxSpeed`) are omitted.  The two `Ball` source variants agree on every
  operation embedded here.
-/

namespace Pong

open Classical

noncomputable section

/-- Game lifecycle status, from the `GameStatus` enum. -/
inductive GameStatus
  | waitingForOpponent
  | countdown
  | playing
  | paused
  | gameOver
deriving DecidableEq

/-- Peer role, from the `PlayerRole` enum. -/
inductive PlayerRole
  | host
  | client
deriving DecidableEq

/-- Winner identifier, the `"player" | "opponent"` union used by `Game.winner`. -/
inductive Winner
  | player
  | opponent
deriving DecidableEq

/-- Result of `Ball.checkScoringBoundary`: which side the ball crossed. -/
inductive ScoreSide
  | left
  | right
deriving DecidableEq

/-- Control actions of `GAME_CONTROL` messages, from the `GameControlAction` enum. -/
inductive GameControlAction
  | start
  | pause
  | resume
  | restart
deriving DecidableEq

/-- A 2D vector, from the `Vector2D` interface. -/
structure Vec2 where
  x : ℝ
  y : ℝ

/-- Game configuration, from the `GameConfig` interface. -/
structure GameConfig where
  ballSpeed : ℝ
  paddleHeight : ℝ
  paddleWidth : ℝ
  winningScore : ℕ
  enablePowerUps : Bool
  powerUpFrequency : ℝ
  enableTurboMode : Bool
  enablePaddleShrinking : Bool
  enableCurveBall : Bool

/-- The `DEFAULT_CONFIG` of `Game.ts`. -/
def defaultConfig : GameConfig :=
  ⟨400, 80, 12, 11, true, 15, true, true, true⟩

/-- Wire-format ball snapshot, from the `BallState` interface.  The fields
marked optional in the interface are `Option`.  The `isActive` field is
read by no embedded operation but kept for interface fidelity. -/
structure BallState where
  position : Vec2
  velocity : Vec2
  radius : ℝ
  speedScaleFactor : Option ℝ := none
  hitCounter : Option ℕ := none
  curveIntensity : Option ℝ := none
  curveDirection : Option ℝ := none
  isActive : Option Bool := none

/-- Wire-format paddle snapshot, from the `PaddleState` interface. -/
structure PaddleState where
  position : Vec2
  width : ℝ
  height : ℝ
  isMovingUp : Bool
  isMovingDown : Bool
  isRebounding : Option Bool := none
  reboundTime : Option ℝ := none

/-- Wire-format full game snapshot, from the `GameState` interface.  The
power-up lists (`powerUps`, `activePowerUps`) are managed by the external
`PowerUpManager` and ignored by `Game.setState`; they are omitted. -/
structure GameState where
  status : GameStatus
  ball : BallState
  playerPaddle : PaddleState
  opponentPaddle : PaddleState
  playerScore : ℕ
  opponentScore : ℕ
  timestamp : ℕ
  countdown : Option ℤ := none
  winner : Option Winner := none
  config : GameConfig
  additionalBalls : Option (List BallState) := none
  turboModeActive : Option Bool := none
  turboModeTimeRemaining : Option ℝ := none
  gameSpeedMultiplier : Option ℝ := none

/-- Runtime state of the `Ball` class (fields of the class instance). -/
structure Ball where
  position : Vec2
  velocity : Vec2
  radius : ℝ
  baseSpeed : ℝ
  speedScaleFactor : ℝ
  curveIntensity : ℝ
  curveDirection : ℝ
  hitCounter : ℕ

/-- The class constant `maxSpeedScale = 2.2`. -/
def Ball.maxSpeedScale : ℝ := 2.2

/-- The class constant `hitSpeedIncrement = 0.08`. -/
def Ball.hitSpeedIncrement : ℝ := 0.08

/-- The `Ball` constructor: field initialisers plus the constructor body. -/
def Ball.make (position : Vec2) (radius : ℝ) (velocity : Vec2) (baseSpeed : ℝ) : Ball :=
  { position := position
    velocity := velocity
    radius := radius
    baseSpeed := baseSpeed
    speedScaleFactor := 1
    curveIntensity := 0
    curveDirection := 1
    hitCounter := 0 }

/-- `Ball.normalizeVelocity`: rescale the velocity to magnitude
`baseSpeed * speedScaleFactor`, preserving direction, when it is nonzero. -/
def Ball.normalizeVelocity (b : Ball) : Ball :=
  let effectiveMaxSpeed := b.baseSpeed * b.speedScaleFactor
  let currentSpeed := Real.sqrt (b.velocity.x * b.velocity.x + b.velocity.y * b.velocity.y)
  if 0 < currentSpeed then
    let speedFactor := effectiveMaxSpeed / currentSpeed
    { b with velocity := ⟨b.velocity.x * speedFactor, b.velocity.y * speedFactor⟩ }
  else b

/-- `Ball.resetSpeedScaling`: zero the hit counter, reset the scale factor
to 1 and renormalise the velocity. -/
def Ball.resetSpeedScaling (b : Ball) : Ball :=
  Ball.normalizeVelocity { b with hitCounter := 0, speedScaleFactor := 1 }

/-- `Ball.reset(position, velocity, resetSpeed)`. -/
def Ball.reset (b : Ball) (position velocity : Vec2) (resetSpeed : Bool) : Ball :=
  let b1 := { b with position := position, velocity := velocity }
  if resetSpeed then b1.resetSpeedScaling else b1

/-- `Ball.increaseBallSpeed`: increment the hit counter and recompute the
speed scale as `min(maxSpeedScale, 1 + hitCounter * hitSpeedIncrement *
(1 + rand * 0.2))`, where `rand` is the `Math.random()` draw, then
renormalise the velocity. -/
def Ball.increaseBallSpeed (b : Ball) (rand : ℝ) : Ball :=
  let hc := b.hitCounter + 1
  let scale := min Ball.maxSpeedScale (1 + (hc : ℝ) * Ball.hitSpeedIncrement * (1 + rand * 0.2))
  Ball.normalizeVelocity { b with hitCounter := hc, speedScaleFactor := scale }

/-- `Ball.checkScoringBoundary(boundaryLeft, boundaryRight)`. -/
def Ball.checkScoringBoundary (b : Ball) (boundaryLeft boundaryRight : ℝ) : Option ScoreSide :=
  if b.position.x - b.radius ≤ boundaryLeft then some ScoreSide.left
  else if boundaryRight ≤ b.position.x + b.radius then some ScoreSide.right
  else none

/-- `Ball.getState`: produce a wire snapshot with every optional field present. -/
def Ball.getState (b : Ball) : BallState :=
  { position := b.position
    velocity := b.velocity
    radius := b.radius
    speedScaleFactor := some b.speedScaleFactor
    hitCounter := some b.hitCounter
    curveIntensity := some b.curveIntensity
    curveDirection := some b.curveDirection }

/-- `Ball.setState`: always overwrite position, velocity and radius; update
each optional field only when it is present. -/
def Ball.setState (b : Ball) (s : BallState) : Ball :=
  { b with
    position := s.position
    velocity := s.velocity
    radius := s.radius
    speedScaleFactor := s.speedScaleFactor.getD b.speedScaleFactor
    hitCounter := s.hitCounter.getD b.hitCounter
    curveIntensity := s.curveIntensity.getD b.curveIntensity
    curveDirection := s.curveDirection.getD b.curveDirection }

/-- Runtime state of the `Paddle` class (fields of the class instance). -/
structure Paddle where
  position : Vec2
  width : ℝ
  height : ℝ
  speed : ℝ
  isMovingUp : Bool
  isMovingDown : Bool
  minY : ℝ
  maxY : ℝ
  isRebounding : Bool
  reboundTime : ℝ
  originalHeight : ℝ
  targetHeight : ℝ
  dashCooldown : ℝ
  dashDuration : ℝ
  isDashing : Bool
  consecutiveHits : ℕ
  isCurrentlyShrunken : Bool

/-- Class constant `reboundDuration = 0.3`. -/
def Paddle.reboundDuration : ℝ := 0.3

/-- Class constant `reboundSpeed = 1.5`. -/
def Paddle.reboundSpeed : ℝ := 1.5

/-- Class constant `boostZoneSize = 0.15`. -/
def Paddle.boostZoneSize : ℝ := 0.15

/-- Class constant `boostMultiplier = 1.5`. -/
def Paddle.boostMultiplier : ℝ := 1.5

/-- Class constant `resizeRate = 50`. -/
def Paddle.resizeRate : ℝ := 50

/-- Class constant `shrinkFactor = 0.99`. -/
def Paddle.shrinkFactor : ℝ := 0.99

/-- Class constant `minPaddleHeight = 30`. -/
def Paddle.minPaddleHeight : ℝ := 30

/-- Class constant `maxPaddleHeight = 120`. -/
def Paddle.maxPaddleHeight : ℝ := 120

/-- Class constant `dashSpeed = 2.5`. -/
def Paddle.dashSpeed : ℝ := 2.5

/-- Class constant `maxDashDuration = 0.15`. -/
def Paddle.maxDashDuration : ℝ := 0.15

/-- Class constant `maxDashCooldown = 0.8`. -/
def Paddle.maxDashCooldown : ℝ := 0.8

/-- The `Paddle` constructor. -/
def Paddle.make (initialPosition : Vec2) (width height speed minY maxY : ℝ) : Paddle :=
  { position := initialPosition
    width := width
    height := height
    speed := speed
    isMovingUp := false
    isMovingDown := false
    minY := minY
    maxY := maxY
    isRebounding := false
    reboundTime := 0
    originalHeight := height
    targetHeight := height
    dashCooldown := 0
    dashDuration := 0
    isDashing := false
    consecutiveHits := 0
    isCurrentlyShrunken := false }

/-- The clamp `Math.max(minY + height/2, Math.min(y, maxY - height/2))`
that the paddle applies to its vertical position after every move or
resize. -/
def Paddle.clampY (p : Paddle) (y : ℝ) : ℝ :=
  max (p.minY + p.height / 2) (min y (p.maxY - p.height / 2))

/-- The movement direction derived from the intent flags: `-1` when only
`isMovingUp` is set, `1` when only `isMovingDown` is set, `0` otherwise. -/
def Paddle.direction (p : Paddle) : ℝ :=
  if p.isMovingUp ∧ ¬p.isMovingDown then -1
  else if p.isMovingDown ∧ ¬p.isMovingUp then 1
  else 0

/-- `Paddle.startRebound(originalDirection)`: enter the rebound state and
reverse the movement-intent flags. -/
def Paddle.startRebound (p : Paddle) (originalDirection : ℝ) : Paddle :=
  let p1 := { p with isRebounding := true, reboundTime := 0 }
  if originalDirection < 0 then { p1 with isMovingUp := false, isMovingDown := true }
  else { p1 with isMovingUp := true, isMovingDown := false }

/-- `Paddle.updateMovement(deltaTime)`: normal movement with boost zones
near the boundaries; a boundary hit starts a rebound, otherwise the new
position is clamped inside the boundaries. -/
def Paddle.updateMovement (p : Paddle) (deltaTime : ℝ) : Paddle :=
  let direction := p.direction
  if direction ≠ 0 then
    let currentSpeed := p.speed
    let topBoostZone := p.minY + (p.maxY - p.minY) * Paddle.boostZoneSize
    let currentSpeed :=
      if p.position.y - p.height / 2 < topBoostZone ∧ direction < 0 then
        currentSpeed * Paddle.boostMultiplier
      else currentSpeed
    let bottomBoostZone := p.maxY - (p.maxY - p.minY) * Paddle.boostZoneSize
    let currentSpeed :=
      if bottomBoostZone < p.position.y + p.height / 2 ∧ 0 < direction then
        currentSpeed * Paddle.boostMultiplier
      else currentSpeed
    let newY := p.position.y + direction * currentSpeed * deltaTime
    if newY - p.height / 2 ≤ p.minY ∧ direction < 0 then
      p.startRebound direction
    else if p.maxY ≤ newY + p.height / 2 ∧ 0 < direction then
      p.startRebound direction
    else
      { p with position := ⟨p.position.x, p.clampY newY⟩ }
  else p

/-- `Paddle.updateDash(deltaTime)`: move at the boosted dash speed with the
position clamped, and leave the dash state when the duration expires. -/
def Paddle.updateDash (p : Paddle) (deltaTime : ℝ) : Paddle :=
  let p1 : Paddle := { p with dashDuration := p.dashDuration - deltaTime }
  let direction := p1.direction
  let p2 : Paddle :=
    if direction ≠ 0 then
      let dashSpeedValue := p1.speed * Paddle.dashSpeed
      let newY := p1.position.y + direction * dashSpeedValue * deltaTime
      { p1 with position := ⟨p1.position.x, p1.clampY newY⟩ }
    else p1
  if p2.dashDuration ≤ 0 then
    { p2 with isDashing := false, dashCooldown := Paddle.maxDashCooldown }
  else p2

/-- `Paddle.updateRebound(deltaTime)`: move at the boosted rebound speed
with the position clamped, and leave the rebound state after the rebound
duration. -/
def Paddle.updateRebound (p : Paddle) (deltaTime : ℝ) : Paddle :=
  let p1 := { p with reboundTime := p.reboundTime + deltaTime }
  let direction := p1.direction
  let p2 :=
    if direction ≠ 0 then
      let reboundSpeedValue := p1.speed * Paddle.reboundSpeed
      let newY := p1.position.y + direction * reboundSpeedValue * deltaTime
      { p1 with position := ⟨p1.position.x, p1.clampY newY⟩ }
    else p1
  if Paddle.reboundDuration ≤ p2.reboundTime then { p2 with isRebounding := false } else p2

/-- `Paddle.updatePaddleSize(deltaTime)`: move the height toward the target
height at `resizeRate`, then re-clamp the position for the new height. -/
def Paddle.updatePaddleSize (p : Paddle) (deltaTime : ℝ) : Paddle :=
  if p.height ≠ p.targetHeight then
    let change := Paddle.resizeRate * deltaTime
    let newHeight :=
      if p.height < p.targetHeight then min p.targetHeight (p.height + change)
      else max p.targetHeight (p.height - change)
    let p1 := { p with height := newHeight }
    { p1 with position := ⟨p1.position.x, p1.clampY p1.position.y⟩ }
  else p

/-- `Paddle.update(deltaTime)`: dispatch to the rebound, dash or normal
movement branch, tick the dash cooldown, apply smooth resizing, and apply
gradual shrinking to the target height. -/
def Paddle.update (p : Paddle) (deltaTime : ℝ) : Paddle :=
  let p1 :=
    if p.isRebounding then p.updateRebound deltaTime
    else if p.isDashing then p.updateDash deltaTime
    else p.updateMovement deltaTime
  let p2 :=
    if 0 < p1.dashCooldown then { p1 with dashCooldown := max 0 (p1.dashCooldown - deltaTime) }
    else p1
  let p3 := p2.updatePaddleSize deltaTime
  if Paddle.minPaddleHeight < p3.height then
    { p3 with targetHeight := max Paddle.minPaddleHeight (p3.targetHeight * Real.rpow Paddle.shrinkFactor deltaTime) }
  else p3

/-- `Paddle.setPosition(position)`: set `x` and clamp `y` inside the
boundaries. -/
def Paddle.setPosition (p : Paddle) (position : Vec2) : Paddle :=
  { p with position := ⟨position.x, p.clampY position.y⟩ }

/-- `Paddle.setBoundaries(minY, maxY)`: set the boundaries and re-clamp the
current position. -/
def Paddle.setBoundaries (p : Paddle) (minY maxY : ℝ) : Paddle :=
  Paddle.setPosition { p with minY := minY, maxY := maxY } ⟨p.position.x, p.position.y⟩

/-- `Paddle.setHeight(height)`: set the height and re-clamp the current
position. -/
def Paddle.setHeight (p : Paddle) (height : ℝ) : Paddle :=
  Paddle.setPosition { p with height := height } ⟨p.position.x, p.position.y⟩

/-- `Paddle.setWidth(width)`. -/
def Paddle.setWidth (p : Paddle) (width : ℝ) : Paddle :=
  { p with width := width }

/-- `Paddle.resetHitCombo`: zero the consecutive-hit counter and return the
target height to the original height. -/
def Paddle.resetHitCombo (p : Paddle) : Paddle :=
  { p with consecutiveHits := 0, targetHeight := p.originalHeight }

/-- `Paddle.getState`: produce a wire snapshot with the optional rebound
fields present. -/
def Paddle.getState (p : Paddle) : PaddleState :=
  { position := p.position
    width := p.width
    height := p.height
    isMovingUp := p.isMovingUp
    isMovingDown := p.isMovingDown
    isRebounding := some p.isRebounding
    reboundTime := some p.reboundTime }

/-- `Paddle.setState(state)`: overwrite position, sizes and intent flags,
take optional rebound fields when present, and finally re-clamp the
position via `setPosition`. -/
def Paddle.setState (p : Paddle) (s : PaddleState) : Paddle :=
  let p1 := { p with
    position := s.position
    width := s.width
    height := s.height
    targetHeight := s.height
    isMovingUp := s.isMovingUp
    isMovingDown := s.isMovingDown }
  let p2 := { p1 with isRebounding := s.isRebounding.getD p1.isRebounding }
  let p3 := { p2 with reboundTime := s.reboundTime.getD p2.reboundTime }
  Paddle.setPosition p3 ⟨p3.position.x, p3.position.y⟩

/-- Runtime state of the `Game` class.  The `countdownTimeout` handle is
modelled by the Boolean `countdownTimeoutPending`.  The external
`PowerUpManager` and the turbo-tick bookkeeping it drives are not part of
any claim and are kept only as the scalar fields the embedded operations
touch. -/
structure Game where
  ball : Ball
  playerPaddle : Paddle
  opponentPaddle : Paddle
  additionalBalls : List Ball
  turboModeActive : Bool
  turboModeTimeRemaining : ℝ
  gameSpeedMultiplier : ℝ
  status : GameStatus
  playerScore : ℕ
  opponentScore : ℕ
  countdown : ℤ
  countdownTimer : ℝ
  winner : Option Winner
  config : GameConfig
  role : PlayerRole
  fieldWidth : ℝ
  fieldHeight : ℝ
  lastUpdateTime : ℝ
  accumulator : ℝ
  countdownTimeoutPending : Bool

/-- The class constant `fixedTimeStep = 1 / 120`. -/
def Game.fixedTimeStep : ℝ := 1 / 120

/-- The class constant `maxSteps = 5` of `Game.update`. -/
def Game.maxSteps : ℕ := 5

/-- `Game.initializeGameObjects`: build the centred ball and the two
paddles, whose sides depend on the role. -/
def Game.initGameObjects (g : Game) : Game :=
  let ball := Ball.make ⟨g.fieldWidth / 2, g.fieldHeight / 2⟩ 10 ⟨0, 0⟩ g.config.ballSpeed
  let paddleY := g.fieldHeight / 2
  let leftPaddleX : ℝ := 30
  let rightPaddleX := g.fieldWidth - 30
  if g.role = PlayerRole.host then
    { g with
      ball := ball
      playerPaddle := Paddle.make ⟨leftPaddleX, paddleY⟩ g.config.paddleWidth g.config.paddleHeight 500 0 g.fieldHeight
      opponentPaddle := Paddle.make ⟨rightPaddleX, paddleY⟩ g.config.paddleWidth g.config.paddleHeight 500 0 g.fieldHeight }
  else
    { g with
      ball := ball
      playerPaddle := Paddle.make ⟨rightPaddleX, paddleY⟩ g.config.paddleWidth g.config.paddleHeight 500 0 g.fieldHeight
      opponentPaddle := Paddle.make ⟨leftPaddleX, paddleY⟩ g.config.paddleWidth g.config.paddleHeight 500 0 g.fieldHeight }

/-- The `Game` constructor: field initialisers followed by
`initializeGameObjects` (the power-up manager construction is external). -/
def Game.init (role : PlayerRole) (config : GameConfig) : Game :=
  Game.initGameObjects
    { ball := Ball.make ⟨400, 300⟩ 10 ⟨0, 0⟩ config.ballSpeed
      playerPaddle := Paddle.make ⟨30, 300⟩ config.paddleWidth config.paddleHeight 500 0 600
      opponentPaddle := Paddle.make ⟨770, 300⟩ config.paddleWidth config.paddleHeight 500 0 600
      additionalBalls := []
      turboModeActive := false
      turboModeTimeRemaining := 0
      gameSpeedMultiplier := 1
      status := GameStatus.waitingForOpponent
      playerScore := 0
      opponentScore := 0
      countdown := 3
      countdownTimer := 0
      winner := none
      config := config
      role := role
      fieldWidth := 800
      fieldHeight := 600
      lastUpdateTime := 0
      accumulator := 0
      countdownTimeoutPending := false }

/-- `Game.resetBall(serveToLeft)`: recentre the ball with a serve velocity
whose horizontal sign is fixed by `serveToLeft` and whose vertical jitter
comes from the `Math.random()` draw `vyRand`, recentre both paddles, and
clear the additional balls. -/
def Game.resetBall (g : Game) (serveToLeft : Bool) (vyRand : ℝ) : Game :=
  let centerPosition : Vec2 := ⟨g.fieldWidth / 2, g.fieldHeight / 2⟩
  let vx := (if serveToLeft then (-1 : ℝ) else 1) * g.config.ballSpeed
  let vy := (vyRand - 0.5) * (g.config.ballSpeed * 0.5)
  { g with
    ball := g.ball.reset centerPosition ⟨vx, vy⟩ true
    playerPaddle := g.playerPaddle.setPosition ⟨g.playerPaddle.position.x, g.fieldHeight / 2⟩
    opponentPaddle := g.opponentPaddle.setPosition ⟨g.opponentPaddle.position.x, g.fieldHeight / 2⟩
    additionalBalls := [] }

/-- `Game.startGame`: clear the countdown timer, and unless already
playing, enter `PLAYING` and serve to the side given by the coin flip
`serveLeft`. -/
def Game.startGame (g : Game) (serveLeft : Bool) (vyRand : ℝ) : Game :=
  let g1 := { g with countdownTimeoutPending := false }
  if g1.status = GameStatus.playing then g1
  else Game.resetBall { g1 with status := GameStatus.playing } serveLeft vyRand

/-- `Game.setupCountdownFailsafe`: clear any pending timer; if the
countdown already reached zero start the game, otherwise arm the failsafe
timer. -/
def Game.setupCountdownFailsafe (g : Game) (serveLeft : Bool) (vyRand : ℝ) : Game :=
  let g1 := { g with countdownTimeoutPending := false }
  if g1.countdown ≤ 0 then g1.startGame serveLeft vyRand
  else { g1 with countdownTimeoutPending := true }

/-- `Game.startCountdown`: unless already playing or counting down, reset
the ball for a new round (serve side from the coin flip `serveLeft`), set
the countdown to 3, enter `COUNTDOWN`, schedule the decrement timer and arm
the failsafe. -/
def Game.startCountdown (g : Game) (serveLeft : Bool) (vyRand : ℝ) : Game :=
  if g.status = GameStatus.playing ∨ g.status = GameStatus.countdown then g
  else
    let g1 := { g with countdownTimeoutPending := false }
    let g2 := g1.resetBall serveLeft vyRand
    let g3 := { g2 with countdown := 3, status := GameStatus.countdown, countdownTimeoutPending := true }
    g3.setupCountdownFailsafe serveLeft vyRand

/-- `Game.pauseGame`. -/
def Game.pauseGame (g : Game) : Game :=
  if g.status = GameStatus.playing then { g with status := GameStatus.paused } else g

/-- `Game.resumeGame`. -/
def Game.resumeGame (g : Game) : Game :=
  if g.status = GameStatus.paused then { g with status := GameStatus.playing } else g

/-- `Game.endGame(winner)`. -/
def Game.endGame (g : Game) (winner : Winner) : Game :=
  { g with status := GameStatus.gameOver, winner := some winner }

/-- `Game.cleanup`: clear the countdown timer and reset the game speed
(the power-up manager reset is external). -/
def Game.cleanup (g : Game) : Game :=
  { g with countdownTimeoutPending := false, turboModeActive := false, gameSpeedMultiplier := 1 }

/-- `Game.restartGame`: clean up, zero the scores and winner, re-create
the game objects, reset speed and additional balls, and start the
countdown. -/
def Game.restartGame (g : Game) (serveLeft : Bool) (vyRand : ℝ) : Game :=
  let g1 := g.cleanup
  let g2 := { g1 with playerScore := 0, opponentScore := 0, winner := none }
  let g3 := g2.initGameObjects
  let g4 := { g3 with turboModeActive := false, gameSpeedMultiplier := 1, additionalBalls := [] }
  g4.startCountdown serveLeft vyRand

/-- `Game.setStatus(status)`. -/
def Game.setStatus (g : Game) (status : GameStatus) : Game :=
  { g with status := status }

/-- `Game.getState`: produce a full wire snapshot; the countdown value is
included only in `COUNTDOWN` status.  The wall-clock `Date.now()` is the
argument `now`. -/
def Game.getState (g : Game) (now : ℕ) : GameState :=
  { status := g.status
    ball := g.ball.getState
    playerPaddle := g.playerPaddle.getState
    opponentPaddle := g.opponentPaddle.getState
    playerScore := g.playerScore
    opponentScore := g.opponentScore
    timestamp := now
    countdown := if g.status = GameStatus.countdown then some g.countdown else none
    winner := g.winner
    config := g.config
    additionalBalls := some (g.additionalBalls.map Ball.getState)
    turboModeActive := some g.turboModeActive
    turboModeTimeRemaining := some g.turboModeTimeRemaining
    gameSpeedMultiplier := some g.gameSpeedMultiplier }

/-- The additional-ball resync of `Game.setState`: pad the current list
with fresh centred balls up to the received length (push), drop surplus
balls from the end (pop), then apply each received ball state index-wise. -/
def Game.syncAdditionalBalls (g : Game) (received : List BallState) : List Ball :=
  let padded := g.additionalBalls ++
    List.replicate (received.length - g.additionalBalls.length)
      (Ball.make ⟨g.fieldWidth / 2, g.fieldHeight / 2⟩ 10 ⟨0, 0⟩ g.config.ballSpeed)
  List.zipWith Ball.setState (padded.take received.length) received

/-- `Game.setState(state)`: set the status first; on a `WAITING → PLAYING`
transition with a resting ball, serve the ball; when the snapshot newly
enters `COUNTDOWN`, delegate to `startCountdown` and return (the status
was already updated, so `startCountdown` returns immediately); otherwise
apply the ball, paddle, score, countdown, winner, config, turbo and
additional-ball fields, where absent optional fields keep the previous
values except that an absent or empty additional-ball list clears the
list. -/
def Game.setState (g : Game) (s : GameState) (serveLeft : Bool) (vyRand : ℝ) : Game :=
  let oldStatus := g.status
  let g1 := { g with status := s.status }
  let g2 :=
    if oldStatus ≠ s.status ∧ oldStatus = GameStatus.waitingForOpponent ∧
        s.status = GameStatus.playing ∧ g1.ball.velocity.x = (0 : ℝ) ∧ g1.ball.velocity.y = (0 : ℝ) then
      g1.resetBall serveLeft vyRand
    else g1
  if s.status = GameStatus.countdown ∧ oldStatus ≠ GameStatus.countdown then
    g2.startCountdown serveLeft vyRand
  else
    let g3 := { g2 with
      ball := g2.ball.setState s.ball
      playerPaddle := g2.playerPaddle.setState s.playerPaddle
      opponentPaddle := g2.opponentPaddle.setState s.opponentPaddle
      playerScore := s.playerScore
      opponentScore := s.opponentScore }
    let g4 :=
      match s.countdown with
      | some c =>
        if s.status = GameStatus.countdown ∧ g3.countdown ≠ c then
          { g3 with countdown := c, countdownTimer := 0 }
        else g3
      | none => g3
    let g5 := { g4 with winner := s.winner, config := s.config }
    let g6 := { g5 with
      turboModeActive := s.turboModeActive.getD g5.turboModeActive
      turboModeTimeRemaining := s.turboModeTimeRemaining.getD g5.turboModeTimeRemaining
      gameSpeedMultiplier := s.gameSpeedMultiplier.getD g5.gameSpeedMultiplier }
    match s.additionalBalls with
    | some received =>
      if received ≠ [] then { g6 with additionalBalls := g6.syncAdditionalBalls received }
      else { g6 with additionalBalls := [] }
    | none => { g6 with additionalBalls := [] }

/-- The win-condition check at the end of `Game.checkScoring`: when either
score reached the configured winning score, end the game with that
winner.  The score updates never change the config, so reading the
winning score from the updated state matches the source. -/
def Game.checkWin (g : Game) : Game :=
  if g.config.winningScore ≤ g.playerScore then g.endGame Winner.player
  else if g.config.winningScore ≤ g.opponentScore then g.endGame Winner.opponent
  else g

/-- `Game.checkScoring`: when the main ball crossed a scoring boundary,
increment the score of the side determined by the boundary and the local
role, reset the hit combo of the conceding paddle, and reset the ball;
remove every additional ball that crossed a boundary (without scoring);
finally check the win condition. -/
def Game.checkScoring (g : Game) (vyRand : ℝ) : Game :=
  let scoringSide := g.ball.checkScoringBoundary 0 g.fieldWidth
  let g1 :=
    match scoringSide with
    | some ScoreSide.left =>
      let gs :=
        if g.role = PlayerRole.host then
          { g with opponentScore := g.opponentScore + 1, playerPaddle := g.playerPaddle.resetHitCombo }
        else
          { g with playerScore := g.playerScore + 1, opponentPaddle := g.opponentPaddle.resetHitCombo }
      gs.resetBall false vyRand
    | some ScoreSide.right =>
      let gs :=
        if g.role = PlayerRole.host then
          { g with playerScore := g.playerScore + 1, opponentPaddle := g.opponentPaddle.resetHitCombo }
        else
          { g with opponentScore := g.opponentScore + 1, playerPaddle := g.playerPaddle.resetHitCombo }
      gs.resetBall true vyRand
    | none => g
  Game.checkWin { g1 with
    additionalBalls := g1.additionalBalls.filter
      (fun b => (b.checkScoringBoundary 0 g.fieldWidth).isNone) }

/-- The fixed-step catch-up loop of `Game.update`: while the accumulator
holds at least one fixed step and fewer than `fuel` steps have run, run one
tick and subtract the step.  The per-tick body is the abstract `tick`
because `fixedUpdate` does not touch the accumulator and claim C4 is about
the loop itself.  Returns the resulting state and the number of ticks. -/
def Game.catchUp (tick : Game → Game) : ℕ → Game → Game × ℕ
  | 0, g => (g, 0)
  | fuel + 1, g =>
    if Game.fixedTimeStep ≤ g.accumulator then
      ((Game.catchUp tick fuel
          { tick g with accumulator := (tick g).accumulator - Game.fixedTimeStep }).1,
        (Game.catchUp tick fuel
          { tick g with accumulator := (tick g).accumulator - Game.fixedTimeStep }).2 + 1)
    else (g, 0)

/-- The accumulator bookkeeping of `Game.update` before the loop: record
the call time and add the elapsed time, capped at 100 ms, to the
accumulator. -/
def Game.preLoop (g : Game) (currentTime : ℝ) : Game :=
  { g with
    lastUpdateTime := currentTime
    accumulator := g.accumulator + min ((currentTime - g.lastUpdateTime) / 1000) 0.1 }

/-- `Game.update(currentTime)`: on the first call only record the time;
otherwise run the capped catch-up loop and, when the step cap was hit with
at least one fixed step still accumulated, drop the remainder.  Returns
the state and the number of executed fixed ticks. -/
def Game.update (tick : Game → Game) (g : Game) (currentTime : ℝ) : Game × ℕ :=
  if g.lastUpdateTime = 0 then ({ g with lastUpdateTime := currentTime }, 0)
  else if Game.maxSteps ≤ (Game.catchUp tick Game.maxSteps (g.preLoop currentTime)).2 ∧
      Game.fixedTimeStep ≤ (Game.catchUp tick Game.maxSteps (g.preLoop currentTime)).1.accumulator then
    ({ (Game.catchUp tick Game.maxSteps (g.preLoop currentTime)).1 with accumulator := 0 },
      (Game.catchUp tick Game.maxSteps (g.preLoop currentTime)).2)
  else Game.catchUp tick Game.maxSteps (g.preLoop currentTime)

/-- The `reconciliationThreshold` of the `DEFAULT_CONFIG` with which the
singleton `syncService` is constructed. -/
def reconciliationThreshold : ℝ := 10

/-- `SyncService.needsReconciliation(localState, remoteState)`: true when
the Euclidean distance between the ball positions, or the absolute
vertical distance of either paddle, exceeds the reconciliation
threshold. -/
def needsReconciliation (localState remoteState : GameState) : Prop :=
  let ballDiff := Real.sqrt
    ((localState.ball.position.x - remoteState.ball.position.x) ^ 2 +
      (localState.ball.position.y - remoteState.ball.position.y) ^ 2)
  let playerPaddleDiff := |localState.playerPaddle.position.y - remoteState.playerPaddle.position.y|
  let opponentPaddleDiff := |localState.opponentPaddle.position.y - remoteState.opponentPaddle.position.y|
  reconciliationThreshold < ballDiff ∨
    reconciliationThreshold < playerPaddleDiff ∨
    reconciliationThreshold < opponentPaddleDiff

/-- `SyncService.bufferGameState(state)`: keep a ring of the last 10
received snapshots, evicting the oldest. -/
def bufferGameState (buffer : List GameState) (state : GameState) : List GameState :=
  (if 10 ≤ buffer.length then buffer.drop 1 else buffer) ++ [state]

/-- Runtime state of the `GameManager` class together with the
`SyncService` state it drives.  The connection status is reduced to the
Boolean `connected` (`CONNECTED` or not); transport sends are external
side effects. -/
structure Manager where
  game : Game
  isHost : Bool
  isNetworkGame : Bool
  connected : Bool
  lastProcessedGameControl : Option (GameControlAction × ℕ)
  isStarting : Bool
  gameLoopRunning : Bool
  syncRunning : Bool
  stateBuffer : List GameState

/-- `SyncService.start`: when not already running, clear the buffers and
begin the ping interval. -/
def Manager.syncStart (m : Manager) : Manager :=
  if m.syncRunning then m else { m with stateBuffer := [], syncRunning := true }

/-- `GameManager.startGame`: in a network game require an established
connection, and on the client only request a start from the host;
otherwise start the countdown and the game loop, and in a network game
start the sync service. -/
def Manager.startGame (m : Manager) (serveLeft : Bool) (vyRand : ℝ) : Manager :=
  if m.isNetworkGame ∧ ¬m.connected then m
  else if m.isNetworkGame ∧ ¬m.isHost then m
  else
    let m1 := { m with game := m.game.startCountdown serveLeft vyRand, gameLoopRunning := true }
    if m1.isNetworkGame then m1.syncStart else m1

/-- `GameManager.pauseGame`: the client only requests a pause from the
host; otherwise pause locally. -/
def Manager.pauseGame (m : Manager) : Manager :=
  if m.isNetworkGame ∧ ¬m.isHost then m else { m with game := m.game.pauseGame }

/-- `GameManager.resumeGame`: the client only requests a resume from the
host; otherwise resume locally. -/
def Manager.resumeGame (m : Manager) : Manager :=
  if m.isNetworkGame ∧ ¬m.isHost then m else { m with game := m.game.resumeGame }

/-- `GameManager.restartGame`: the client only requests a restart from the
host; otherwise restart locally. -/
def Manager.restartGame (m : Manager) (serveLeft : Bool) (vyRand : ℝ) : Manager :=
  if m.isNetworkGame ∧ ¬m.isHost then m
  else { m with game := m.game.restartGame serveLeft vyRand }

/-- The `GAME_CONTROL` receive handler of `GameManager`: drop the message
when both the last processed timestamp and the message timestamp are
truthy and the message timestamp is strictly older; otherwise record the
message (with `Date.now()`, the argument `now`, replacing a falsy
timestamp) and dispatch the action.  The 2-second timeout that clears
`isStarting` again is asynchronous and therefore still pending at the end
of the synchronous handler. -/
def Manager.handleGameControl (m : Manager) (action : GameControlAction)
    (timestamp : ℕ) (now : ℕ) (serveLeft : Bool) (vyRand : ℝ) : Manager :=
  let stale :=
    match m.lastProcessedGameControl with
    | some last => last.2 ≠ 0 ∧ timestamp ≠ 0 ∧ timestamp < last.2
    | none => False
  if stale then m
  else
    let m1 := { m with
      lastProcessedGameControl := some (action, if timestamp = 0 then now else timestamp) }
    match action with
    | GameControlAction.start =>
      if ¬m1.isStarting then Manager.startGame { m1 with isStarting := true } serveLeft vyRand
      else m1
    | GameControlAction.pause => m1.pauseGame
    | GameControlAction.resume => m1.resumeGame
    | GameControlAction.restart => m1.restartGame serveLeft vyRand

/-- The `GAME_STATE` receive handler of `GameManager` (clients only):
buffer the snapshot, leave the waiting state when the host already left
it (starting the game loop and the sync service), then either hard
reconcile by applying the full remote snapshot, or soft merge by applying
the remote ball, opponent paddle, scores, status, countdown and winner on
top of the local snapshot. -/
def Manager.handleGameState (m : Manager) (remote : GameState) (serveLeft : Bool)
    (vyRand : ℝ) (now : ℕ) : Manager :=
  if m.isHost then m
  else
    let m1 := { m with stateBuffer := bufferGameState m.stateBuffer remote }
    let localState := m1.game.getState now
    let m2 :=
      if localState.status = GameStatus.waitingForOpponent ∧
          remote.status ≠ GameStatus.waitingForOpponent then
        Manager.syncStart { m1 with game := m1.game.setStatus remote.status, gameLoopRunning := true }
      else m1
    if needsReconciliation localState remote then
      { m2 with game := m2.game.setState remote serveLeft vyRand }
    else
      let updatedState := { localState with
        ball := remote.ball
        opponentPaddle := remote.opponentPaddle
        playerScore := remote.playerScore
        opponentScore := remote.opponentScore
        status := remote.status
        countdown := remote.countdown
        winner := remote.winner }
      { m2 with game := m2.game.setState updatedState serveLeft vyRand }

/-! Helper lemmas about the embedded operations. -/

/-- Renormalising the velocity does not change the speed scale factor. -/
lemma Ball.normalizeVelocity_speedScaleFactor (b : Ball) :
    b.normalizeVelocity.speedScaleFactor = b.speedScaleFactor := by
  rw [Ball.normalizeVelocity]
  dsimp only
  split <;> rfl

/-- Renormalising the velocity does not change the hit counter. -/
lemma Ball.normalizeVelocity_hitCounter (b : Ball) :
    b.normalizeVelocity.hitCounter = b.hitCounter := by
  rw [Ball.normalizeVelocity]
  dsimp only
  split <;> rfl

/-- Renormalising the velocity does not change the position. -/
lemma Ball.normalizeVelocity_position (b : Ball) :
    b.normalizeVelocity.position = b.position := by
  rw [Ball.normalizeVelocity]
  dsimp only
  split <;> rfl

/-- The speed scale factor written by `increaseBallSpeed`. -/
lemma Ball.increaseBallSpeed_speedScaleFactor (b : Ball) (rand : ℝ) :
    (b.increaseBallSpeed rand).speedScaleFactor =
      min Ball.maxSpeedScale
        (1 + ((b.hitCounter + 1 : ℕ) : ℝ) * Ball.hitSpeedIncrement * (1 + rand * 0.2)) := by
  rw [Ball.increaseBallSpeed]
  rw [Ball.normalizeVelocity_speedScaleFactor]

/-- The hit counter written by `increaseBallSpeed`. -/
lemma Ball.increaseBallSpeed_hitCounter (b : Ball) (rand : ℝ) :
    (b.increaseBallSpeed rand).hitCounter = b.hitCounter + 1 := by
  rw [Ball.increaseBallSpeed]
  rw [Ball.normalizeVelocity_hitCounter]

/-- A demonstration ball, as constructed by `initializeGameObjects`. -/
def demoBall : Ball := Ball.make ⟨400, 300⟩ 10 ⟨0, 0⟩ 400

/-! Claim C3: speed-scale monotonicity and cap. -/

/-- Claim C3, counterexample to monotonicity under adversarial jitter:
starting from a fresh ball, five hits with jitter draw 0, then a hit with
jitter draw 1 (jitter term 0.2), then a hit with jitter draw 0 (jitter
term 0): the speed scale factor after hit 7 (1.56) is strictly below the
factor after hit 6 (1.576), so the claimed monotonicity for every jitter
realization in [0, 0.2] is false. -/
theorem speedScale_not_monotone_adversarial_jitter :
    (((((((demoBall.increaseBallSpeed 0).increaseBallSpeed 0).increaseBallSpeed
        0).increaseBallSpeed 0).increaseBallSpeed 0).increaseBallSpeed 1).increaseBallSpeed
        0).speedScaleFactor <
      ((((((demoBall.increaseBallSpeed 0).increaseBallSpeed 0).increaseBallSpeed
        0).increaseBallSpeed 0).increaseBallSpeed 0).increaseBallSpeed 1).speedScaleFactor := by
  simp only [Ball.increaseBallSpeed_speedScaleFactor, Ball.increaseBallSpeed_hitCounter,
    demoBall, Ball.make]
  norm_num [Ball.maxSpeedScale, Ball.hitSpeedIncrement, min_def]

/-- Claim C3 (amended): after every paddle hit the speed scale factor is at
most the configured maximum scale 2.2; and the factor is non-decreasing
from one hit to the next whenever the jitter draw of the later hit is at
least the draw of the earlier hit (in particular for a constant, seeded
jitter).  Monotonicity for arbitrary jitter realizations is refuted by
`speedScale_not_monotone_adversarial_jitter`. -/
theorem speedScale_cap_and_monotone_of_jitter_mono (b : Ball) (j jNext : ℝ) :
    (b.increaseBallSpeed j).speedScaleFactor ≤ Ball.maxSpeedScale ∧
      (0 ≤ j → j ≤ jNext →
        (b.increaseBallSpeed j).speedScaleFactor ≤
          ((b.increaseBallSpeed j).increaseBallSpeed jNext).speedScaleFactor) := by
  constructor
  · rw [Ball.increaseBallSpeed_speedScaleFactor]
    exact min_le_left _ _
  · intro hj hjj
    rw [Ball.increaseBallSpeed_speedScaleFactor, Ball.increaseBallSpeed_speedScaleFactor,
      Ball.increaseBallSpeed_hitCounter]
    refine min_le_min le_rfl ?_
    have hc : (0 : ℝ) ≤ (b.hitCounter : ℝ) := Nat.cast_nonneg _
    push_cast
    rw [Ball.hitSpeedIncrement]
    nlinarith

/-- Witness for C3 at a concrete input: a first hit with jitter draw 0 and
a second hit with jitter draw 1/2. -/
theorem speedScale_cap_and_monotone_witness :
    (demoBall.increaseBallSpeed 0).speedScaleFactor ≤ Ball.maxSpeedScale ∧
      (demoBall.increaseBallSpeed 0).speedScaleFactor ≤
        ((demoBall.increaseBallSpeed 0).increaseBallSpeed (1 / 2)).speedScaleFactor :=
  ⟨(speedScale_cap_and_monotone_of_jitter_mono demoBall 0 (1 / 2)).1,
    (speedScale_cap_and_monotone_of_jitter_mono demoBall 0 (1 / 2)).2 (by norm_num) (by norm_num)⟩

/-! Claim C4: bounded catch-up. -/

/-- The catch-up loop executes at most `fuel` ticks. -/
lemma Game.catchUp_steps_le (tick : Game → Game) (fuel : ℕ) (g : Game) :
    (Game.catchUp tick fuel g).2 ≤ fuel := by
  induction fuel generalizing g with
  | zero => simp [Game.catchUp]
  | succ n ih =>
    rw [Game.catchUp]
    by_cases hc : Game.fixedTimeStep ≤ g.accumulator
    · rw [if_pos hc]
      exact Nat.succ_le_succ (ih _)
    · rw [if_neg hc]
      exact Nat.zero_le _

/-- When the catch-up loop stops before exhausting its fuel, the remaining
accumulator is below one fixed step. -/
lemma Game.catchUp_stop (tick : Game → Game) (fuel : ℕ) (g : Game)
    (h : (Game.catchUp tick fuel g).2 < fuel) :
    (Game.catchUp tick fuel g).1.accumulator < Game.fixedTimeStep := by
  induction fuel generalizing g with
  | zero => exact absurd h (Nat.not_lt_zero _)
  | succ n ih =>
    rw [Game.catchUp] at h ⊢
    by_cases hc : Game.fixedTimeStep ≤ g.accumulator
    · rw [if_pos hc] at h ⊢
      exact ih _ (Nat.lt_of_succ_lt_succ h)
    · rw [if_neg hc]
      exact lt_of_not_le hc

/-- Claim C4: a single `Game.update` call executes at most `maxSteps = 5`
fixed ticks (for any per-tick body); on every call after the first the
returned accumulator is below one fixed step, so no backlog of a step or
more is ever carried to a later call; and when the loop hits the step cap
with at least one fixed step still accumulated, the accumulator is reset
to exactly zero. -/
theorem update_bounded_catchup (tick : Game → Game) (g : Game) (currentTime : ℝ) :
    (Game.update tick g currentTime).2 ≤ Game.maxSteps ∧
      (g.lastUpdateTime ≠ 0 →
        (Game.update tick g currentTime).1.accumulator < Game.fixedTimeStep) ∧
      (g.lastUpdateTime ≠ 0 →
        Game.maxSteps ≤ (Game.catchUp tick Game.maxSteps (g.preLoop currentTime)).2 →
        Game.fixedTimeStep ≤ (Game.catchUp tick Game.maxSteps (g.preLoop currentTime)).1.accumulator →
        (Game.update tick g currentTime).1.accumulator = 0) := by
  by_cases h0 : g.lastUpdateTime = 0
  · refine ⟨?_, fun hfirst => absurd h0 hfirst, fun hfirst => absurd h0 hfirst⟩
    rw [Game.update, if_pos h0]
    exact Nat.zero_le _
  · by_cases hcap : Game.maxSteps ≤ (Game.catchUp tick Game.maxSteps (g.preLoop currentTime)).2 ∧
        Game.fixedTimeStep ≤ (Game.catchUp tick Game.maxSteps (g.preLoop currentTime)).1.accumulator
    · rw [Game.update, if_neg h0, if_pos hcap]
      refine ⟨Game.catchUp_steps_le _ _ _, fun _ => ?_, fun _ _ _ => rfl⟩
      show (0 : ℝ) < Game.fixedTimeStep
      rw [Game.fixedTimeStep]
      norm_num
    · rw [Game.update, if_neg h0, if_neg hcap]
      refine ⟨Game.catchUp_steps_le _ _ _, fun _ => ?_, fun _ hsteps hacc => absurd ⟨hsteps, hacc⟩ hcap⟩
      rcases not_and_or.mp hcap with hsteps | hacc
      · exact Game.catchUp_stop _ _ _ (lt_of_not_le (by simpa [Game.maxSteps] using hsteps))
      · exact lt_of_not_le hacc

/-- A demonstration game state used to instantiate several claims. -/
def demoGame : Game :=
  { ball := Ball.make ⟨400, 300⟩ 10 ⟨0, 0⟩ 400
    playerPaddle := Paddle.make ⟨30, 300⟩ 12 80 500 0 600
    opponentPaddle := Paddle.make ⟨770, 300⟩ 12 80 500 0 600
    additionalBalls := []
    turboModeActive := false
    turboModeTimeRemaining := 0
    gameSpeedMultiplier := 1
    status := GameStatus.playing
    playerScore := 0
    opponentScore := 0
    countdown := 3
    countdownTimer := 0
    winner := none
    config := defaultConfig
    role := PlayerRole.host
    fieldWidth := 800
    fieldHeight := 600
    lastUpdateTime := 1
    accumulator := 0
    countdownTimeoutPending := false }

/-- Witness for C4: a call one million milliseconds after the previous one
runs exactly into the capped branch (the elapsed time is capped to 100 ms,
the loop runs 5 ticks of 1/120 s, and the 7/120 s remainder, which is at
least one step, is dropped to zero). -/
theorem update_bounded_catchup_witness :
    demoGame.lastUpdateTime ≠ 0 ∧
      Game.maxSteps ≤ (Game.catchUp id Game.maxSteps (demoGame.preLoop 1000000)).2 ∧
      Game.fixedTimeStep ≤ (Game.catchUp id Game.maxSteps (demoGame.preLoop 1000000)).1.accumulator ∧
      (Game.update id demoGame 1000000).1.accumulator = 0 := by
  have h1 : demoGame.lastUpdateTime ≠ 0 := by norm_num [demoGame]
  have h2 : Game.maxSteps ≤ (Game.catchUp id Game.maxSteps (demoGame.preLoop 1000000)).2 := by
    norm_num [Game.catchUp, Game.preLoop, Game.maxSteps, Game.fixedTimeStep, demoGame]
  have h3 : Game.fixedTimeStep ≤
      (Game.catchUp id Game.maxSteps (demoGame.preLoop 1000000)).1.accumulator := by
    norm_num [Game.catchUp, Game.preLoop, Game.maxSteps, Game.fixedTimeStep, demoGame]
  exact ⟨h1, h2, h3, (update_bounded_catchup id demoGame 1000000).2.2 h1 h2 h3⟩

/-! Claim C5: the needs-reconciliation test. -/

/-- Embed a `Vec2` into the plane with its genuine Euclidean metric. -/
def toE (v : Vec2) : EuclideanSpace ℝ (Fin 2) := ![v.x, v.y]

/-- Claim C5: `needsReconciliation` holds exactly when the Euclidean
distance between the ball positions, or the absolute difference of either
paddle vertical position, exceeds the configured threshold 10. -/
theorem needsReconciliation_iff_threshold (localState remoteState : GameState) :
    needsReconciliation localState remoteState ↔
      (10 < dist (toE localState.ball.position) (toE remoteState.ball.position) ∨
        10 < |localState.playerPaddle.position.y - remoteState.playerPaddle.position.y| ∨
        10 < |localState.opponentPaddle.position.y - remoteState.opponentPaddle.position.y|) := by
  have hdist : dist (toE localState.ball.position) (toE remoteState.ball.position) =
      Real.sqrt ((localState.ball.position.x - remoteState.ball.position.x) ^ 2 +
        (localState.ball.position.y - remoteState.ball.position.y) ^ 2) := by
    rw [EuclideanSpace.dist_eq]
    simp [toE, Fin.sum_univ_two, Real.dist_eq, sq_abs]
  rw [needsReconciliation, hdist, reconciliationThreshold]

/-! Claim C7: status versus optional fields. -/

/-- Claim C7 (amended): for every `Game` instance the snapshot returned by
`getState` has a countdown value exactly when the status is `COUNTDOWN`
(this half of the claimed invariant holds by construction of `getState`).
The winner half of the claimed invariant is refuted by
`winner_survives_setStatus`. -/
theorem countdown_defined_iff_status_countdown (g : Game) (now : ℕ) :
    (g.getState now).countdown.isSome ↔ g.status = GameStatus.countdown := by
  by_cases h : g.status = GameStatus.countdown <;> simp [Game.getState, h]

/-- A well-formed game-over snapshot (winner set only with `GAME_OVER`,
no countdown), as a host would transmit after a match ends. -/
def demoGameOverSnapshot : GameState :=
  { status := GameStatus.gameOver
    ball := { position := ⟨400, 300⟩, velocity := ⟨0, 0⟩, radius := 10 }
    playerPaddle := ⟨⟨30, 300⟩, 12, 80, false, false, some false, some 0⟩
    opponentPaddle := ⟨⟨770, 300⟩, 12, 80, false, false, some false, some 0⟩
    playerScore := 11
    opponentScore := 3
    timestamp := 0
    winner := some Winner.player
    config := defaultConfig }

/-- Claim C7, counterexample: applying the invariant-respecting game-over
snapshot via `setState` and then the public `setStatus PLAYING` yields a
game whose `getState` has a non-null winner while the status is not
`GAME_OVER`, so the claimed invariant over sequences of public operations
is false. -/
theorem winner_survives_setStatus :
    let g := ((Game.init PlayerRole.host defaultConfig).setState demoGameOverSnapshot true
      (1 / 2)).setStatus GameStatus.playing
    (g.getState 0).winner = some Winner.player ∧ g.status ≠ GameStatus.gameOver := by
  intro g
  have hst : (Game.init PlayerRole.host defaultConfig).status =
      GameStatus.waitingForOpponent := by
    simp [Game.init, Game.initGameObjects]
  constructor
  · show g.winner = some Winner.player
    simp [g, Game.setStatus, Game.setState, hst, demoGameOverSnapshot, Game.getState]
  · show GameStatus.playing ≠ GameStatus.gameOver
    simp

/-! Claim C8: decoding absent optional fields. -/

/-- Claim C8 (amended): applying a snapshot whose optional fields are all
absent is total (the embedding is a function, never an error) and, as long
as the snapshot does not newly enter `COUNTDOWN` (in which case `setState`
returns after only updating the status, see
`setState_countdown_entry_keeps_winner`) and does not trigger the
`WAITING → PLAYING` serve of a resting ball (which re-seeds the ball speed
scaling before the snapshot is applied), it yields the defined defaults:
the winner becomes null, the additional-balls list becomes empty, and all
fields for which no value was received keep their previous values. -/
theorem setState_absent_optionals (g : Game) (s : GameState) (serveLeft : Bool) (vyRand : ℝ)
    (hcd : ¬(s.status = GameStatus.countdown ∧ g.status ≠ GameStatus.countdown))
    (hserve : ¬(g.status ≠ s.status ∧ g.status = GameStatus.waitingForOpponent ∧
      s.status = GameStatus.playing ∧ g.ball.velocity.x = (0 : ℝ) ∧ g.ball.velocity.y = (0 : ℝ)))
    (h1 : s.countdown = none) (h2 : s.winner = none) (h3 : s.additionalBalls = none)
    (h4 : s.turboModeActive = none) (h5 : s.turboModeTimeRemaining = none)
    (h6 : s.gameSpeedMultiplier = none)
    (hb1 : s.ball.speedScaleFactor = none) (hb2 : s.ball.hitCounter = none)
    (hb3 : s.ball.curveIntensity = none) (hb4 : s.ball.curveDirection = none)
    (hp1 : s.playerPaddle.isRebounding = none) (hp2 : s.playerPaddle.reboundTime = none)
    (ho1 : s.opponentPaddle.isRebounding = none) (ho2 : s.opponentPaddle.reboundTime = none) :
    let gr := g.setState s serveLeft vyRand
    gr.winner = none ∧ gr.additionalBalls = [] ∧ gr.countdown = g.countdown ∧
      gr.turboModeActive = g.turboModeActive ∧
      gr.turboModeTimeRemaining = g.turboModeTimeRemaining ∧
      gr.gameSpeedMultiplier = g.gameSpeedMultiplier ∧
      gr.ball.speedScaleFactor = g.ball.speedScaleFactor ∧
      gr.ball.hitCounter = g.ball.hitCounter ∧
      gr.ball.curveIntensity = g.ball.curveIntensity ∧
      gr.ball.curveDirection = g.ball.curveDirection ∧
      gr.playerPaddle.isRebounding = g.playerPaddle.isRebounding ∧
      gr.playerPaddle.reboundTime = g.playerPaddle.reboundTime ∧
      gr.opponentPaddle.isRebounding = g.opponentPaddle.isRebounding ∧
      gr.opponentPaddle.reboundTime = g.opponentPaddle.reboundTime := by
  intro gr
  simp only [gr, Game.setState, if_neg hserve, if_neg hcd, h1, h2, h3, h4, h5, h6]
  simp [Ball.setState, Paddle.setState, Paddle.setPosition, hb1, hb2, hb3, hb4,
    hp1, hp2, ho1, ho2]

/-- A snapshot with every optional field absent. -/
def demoAbsentSnapshot : GameState :=
  { status := GameStatus.playing
    ball := { position := ⟨410, 310⟩, velocity := ⟨200, 50⟩, radius := 10 }
    playerPaddle :=
      { position := ⟨30, 310⟩
        width := 12
        height := 80
        isMovingUp := false
        isMovingDown := false }
    opponentPaddle :=
      { position := ⟨770, 290⟩
        width := 12
        height := 80
        isMovingUp := false
        isMovingDown := false }
    playerScore := 1
    opponentScore := 2
    timestamp := 5
    config := defaultConfig }

/-- Witness for C8 at a concrete playing-state snapshot with all optional
fields absent. -/
theorem setState_absent_optionals_witness :
    (demoGame.setState demoAbsentSnapshot true (1 / 2)).winner = none ∧
      (demoGame.setState demoAbsentSnapshot true (1 / 2)).additionalBalls = [] ∧
      (demoGame.setState demoAbsentSnapshot true (1 / 2)).turboModeActive =
        demoGame.turboModeActive :=
  have h := setState_absent_optionals demoGame demoAbsentSnapshot true (1 / 2)
    (by simp [demoGame, demoAbsentSnapshot])
    (by simp [demoGame, demoAbsentSnapshot])
    (by rfl) (by rfl) (by rfl) (by rfl) (by rfl) (by rfl) (by rfl) (by rfl) (by rfl) (by rfl)
    (by rfl) (by rfl) (by rfl) (by rfl)
  ⟨h.1, h.2.1, h.2.2.2.1⟩

/-- The playing snapshot retargeted to enter `COUNTDOWN`. -/
def demoCountdownSnapshot : GameState :=
  { demoAbsentSnapshot with status := GameStatus.countdown }

/-- Claim C8, counterexample: a snapshot that newly enters `COUNTDOWN`
with all optional fields absent makes `setState` return after only setting
the status (the already-updated status makes the delegated
`startCountdown` a no-op), so a previous non-null winner is kept instead
of becoming null and a non-empty additional-ball list is kept instead of
becoming empty. -/
theorem setState_countdown_entry_keeps_winner :
    let g0 : Game :=
      { demoGame with
        status := GameStatus.gameOver
        winner := some Winner.player
        additionalBalls := [demoBall] }
    (g0.setState demoCountdownSnapshot true (1 / 2)).winner = some Winner.player ∧
      (g0.setState demoCountdownSnapshot true (1 / 2)).additionalBalls = [demoBall] := by
  intro g0
  simp [g0, Game.setState, Game.startCountdown, demoCountdownSnapshot, demoAbsentSnapshot,
    demoGame]

/-! Helper lemmas about `Ball.reset` and `Game.resetBall`. -/

/-- A serve reset recentres the ball at the given position. -/
lemma Ball.reset_position (b : Ball) (pos vel : Vec2) :
    (b.reset pos vel true).position = pos := by
  simp [Ball.reset, Ball.resetSpeedScaling, Ball.normalizeVelocity_position]

/-- A serve reset returns the speed scale factor to 1. -/
lemma Ball.reset_speedScaleFactor (b : Ball) (pos vel : Vec2) :
    (b.reset pos vel true).speedScaleFactor = 1 := by
  simp [Ball.reset, Ball.resetSpeedScaling, Ball.normalizeVelocity_speedScaleFactor]

/-- A serve reset zeroes the hit counter. -/
lemma Ball.reset_hitCounter (b : Ball) (pos vel : Vec2) :
    (b.reset pos vel true).hitCounter = 0 := by
  simp [Ball.reset, Ball.resetSpeedScaling, Ball.normalizeVelocity_hitCounter]

/-- A serve reset with a rightward serve velocity leaves the horizontal
velocity positive after renormalisation. -/
lemma Ball.reset_velocity_x_pos (b : Ball) (pos : Vec2) (vx vy : ℝ)
    (hbase : 0 < b.baseSpeed) (hx : 0 < vx) :
    0 < (b.reset pos ⟨vx, vy⟩ true).velocity.x := by
  have hcur : 0 < Real.sqrt (vx * vx + vy * vy) := Real.sqrt_pos.mpr (by nlinarith)
  simp only [Ball.reset, Ball.resetSpeedScaling, Ball.normalizeVelocity, if_true]
  rw [if_pos (by simpa using hcur)]
  have : (0 : ℝ) < b.baseSpeed * 1 / Real.sqrt (vx * vx + vy * vy) :=
    div_pos (by linarith) hcur
  simpa using mul_pos hx this

/-- A serve reset with a leftward serve velocity leaves the horizontal
velocity negative after renormalisation. -/
lemma Ball.reset_velocity_x_neg (b : Ball) (pos : Vec2) (vx vy : ℝ)
    (hbase : 0 < b.baseSpeed) (hx : vx < 0) :
    (b.reset pos ⟨vx, vy⟩ true).velocity.x < 0 := by
  have hcur : 0 < Real.sqrt (vx * vx + vy * vy) := Real.sqrt_pos.mpr (by nlinarith)
  simp only [Ball.reset, Ball.resetSpeedScaling, Ball.normalizeVelocity, if_true]
  rw [if_pos (by simpa using hcur)]
  have : (0 : ℝ) < b.baseSpeed * 1 / Real.sqrt (vx * vx + vy * vy) :=
    div_pos (by linarith) hcur
  simpa using mul_neg_of_neg_of_pos hx this

/-- Fields of the ball after `Game.resetBall`. -/
lemma Game.resetBall_ball_fields (g : Game) (serveToLeft : Bool) (vyRand : ℝ) :
    (g.resetBall serveToLeft vyRand).ball.position = (⟨g.fieldWidth / 2, g.fieldHeight / 2⟩ : Vec2) ∧
      (g.resetBall serveToLeft vyRand).ball.speedScaleFactor = 1 ∧
      (g.resetBall serveToLeft vyRand).ball.hitCounter = 0 := by
  simp [Game.resetBall, Ball.reset_position, Ball.reset_speedScaleFactor, Ball.reset_hitCounter]

/-- Serving to the right keeps the horizontal velocity positive. -/
lemma Game.resetBall_velocity_x_pos (g : Game) (vyRand : ℝ)
    (hspeed : 0 < g.config.ballSpeed) (hbase : 0 < g.ball.baseSpeed) :
    0 < (g.resetBall false vyRand).ball.velocity.x := by
  simp only [Game.resetBall, Bool.false_eq_true, if_false]
  exact Ball.reset_velocity_x_pos _ _ _ _ hbase (by simpa using hspeed)

/-- Serving to the left keeps the horizontal velocity negative. -/
lemma Game.resetBall_velocity_x_neg (g : Game) (vyRand : ℝ)
    (hspeed : 0 < g.config.ballSpeed) (hbase : 0 < g.ball.baseSpeed) :
    (g.resetBall true vyRand).ball.velocity.x < 0 := by
  simp only [Game.resetBall, if_true]
  refine Ball.reset_velocity_x_neg _ _ _ _ hbase ?_
  have : (-1 : ℝ) * g.config.ballSpeed < 0 := by nlinarith
  simpa using this

/-- The ball after `resetBall` sits at the field centre. -/
lemma Game.resetBall_position (g : Game) (serveToLeft : Bool) (vyRand : ℝ) :
    (g.resetBall serveToLeft vyRand).ball.position =
      (⟨g.fieldWidth / 2, g.fieldHeight / 2⟩ : Vec2) :=
  (Game.resetBall_ball_fields g serveToLeft vyRand).1

/-- The ball after `resetBall` has speed scale factor 1. -/
lemma Game.resetBall_scale (g : Game) (serveToLeft : Bool) (vyRand : ℝ) :
    (g.resetBall serveToLeft vyRand).ball.speedScaleFactor = 1 :=
  (Game.resetBall_ball_fields g serveToLeft vyRand).2.1

/-- The ball after `resetBall` has hit counter 0. -/
lemma Game.resetBall_hit (g : Game) (serveToLeft : Bool) (vyRand : ℝ) :
    (g.resetBall serveToLeft vyRand).ball.hitCounter = 0 :=
  (Game.resetBall_ball_fields g serveToLeft vyRand).2.2

/-- `resetBall` clears the additional balls. -/
lemma Game.resetBall_additionalBalls (g : Game) (serveToLeft : Bool) (vyRand : ℝ) :
    (g.resetBall serveToLeft vyRand).additionalBalls = [] := by
  simp [Game.resetBall]

/-- `resetBall` recentres the player paddle without touching its combo
counter. -/
lemma Game.resetBall_playerPaddle_hits (g : Game) (serveToLeft : Bool) (vyRand : ℝ) :
    (g.resetBall serveToLeft vyRand).playerPaddle.consecutiveHits =
      g.playerPaddle.consecutiveHits := by
  simp [Game.resetBall, Paddle.setPosition]

/-- `resetBall` recentres the opponent paddle without touching its combo
counter. -/
lemma Game.resetBall_opponentPaddle_hits (g : Game) (serveToLeft : Bool) (vyRand : ℝ) :
    (g.resetBall serveToLeft vyRand).opponentPaddle.consecutiveHits =
      g.opponentPaddle.consecutiveHits := by
  simp [Game.resetBall, Paddle.setPosition]

/-- The scores after `resetBall` are unchanged. -/
lemma Game.resetBall_scores (g : Game) (serveToLeft : Bool) (vyRand : ℝ) :
    (g.resetBall serveToLeft vyRand).playerScore = g.playerScore ∧
      (g.resetBall serveToLeft vyRand).opponentScore = g.opponentScore := by
  simp [Game.resetBall]

/-! Projection lemmas for the win-condition check at the end of
`checkScoring`; `endGame` only writes the status and winner. -/

/-- The win check does not change the ball. -/
lemma winCheck_ball (g2 : Game) : g2.checkWin.ball = g2.ball := by
  rw [Game.checkWin]
  split_ifs <;> simp [Game.endGame]

/-- The win check does not change the player score. -/
lemma winCheck_playerScore (g2 : Game) : g2.checkWin.playerScore = g2.playerScore := by
  rw [Game.checkWin]
  split_ifs <;> simp [Game.endGame]

/-- The win check does not change the opponent score. -/
lemma winCheck_opponentScore (g2 : Game) : g2.checkWin.opponentScore = g2.opponentScore := by
  rw [Game.checkWin]
  split_ifs <;> simp [Game.endGame]

/-- The win check does not change the additional balls. -/
lemma winCheck_additionalBalls (g2 : Game) :
    g2.checkWin.additionalBalls = g2.additionalBalls := by
  rw [Game.checkWin]
  split_ifs <;> simp [Game.endGame]

/-- The win check does not change the player paddle. -/
lemma winCheck_playerPaddle (g2 : Game) : g2.checkWin.playerPaddle = g2.playerPaddle := by
  rw [Game.checkWin]
  split_ifs <;> simp [Game.endGame]

/-- The win check does not change the opponent paddle. -/
lemma winCheck_opponentPaddle (g2 : Game) : g2.checkWin.opponentPaddle = g2.opponentPaddle := by
  rw [Game.checkWin]
  split_ifs <;> simp [Game.endGame]

/-! Claim C6: scoring boundary effect. -/

/-- Claim C6: during a tick in which the main ball has crossed a scoring
boundary, exactly one of the two scores increases by exactly one, on the
side determined by the boundary and the local role; the main ball is reset
to the field centre with its speed scaling and hit counter reset and a
fresh serve velocity whose horizontal sign follows the serving rule; the
additional-ball list becomes empty; and the hit combo of the paddle on the
side the ball went out is reset to zero. -/
theorem scoring_boundary_effects (g : Game) (vyRand : ℝ) (side : ScoreSide)
    (hs : g.ball.checkScoringBoundary 0 g.fieldWidth = some side)
    (hspeed : 0 < g.config.ballSpeed) (hbase : 0 < g.ball.baseSpeed) :
    let gr := g.checkScoring vyRand
    gr.playerScore + gr.opponentScore = g.playerScore + g.opponentScore + 1 ∧
      gr.playerScore =
        (if side = ScoreSide.right ↔ g.role = PlayerRole.host then g.playerScore + 1
          else g.playerScore) ∧
      gr.opponentScore =
        (if side = ScoreSide.right ↔ g.role = PlayerRole.host then g.opponentScore
          else g.opponentScore + 1) ∧
      gr.ball.position = (⟨g.fieldWidth / 2, g.fieldHeight / 2⟩ : Vec2) ∧
      gr.ball.speedScaleFactor = 1 ∧
      gr.ball.hitCounter = 0 ∧
      (if side = ScoreSide.left then 0 < gr.ball.velocity.x else gr.ball.velocity.x < 0) ∧
      gr.additionalBalls = [] ∧
      (if side = ScoreSide.left ↔ g.role = PlayerRole.host then
        gr.playerPaddle.consecutiveHits = 0 else gr.opponentPaddle.consecutiveHits = 0) := by
  intro gr
  cases side with
  | left =>
    by_cases hrole : g.role = PlayerRole.host
    · have hv := Game.resetBall_velocity_x_pos
        { g with
          opponentScore := g.opponentScore + 1
          playerPaddle := g.playerPaddle.resetHitCombo }
        vyRand hspeed hbase
      simp only [gr, Game.checkScoring, hs, if_pos hrole, winCheck_ball, winCheck_playerScore,
        winCheck_opponentScore, winCheck_additionalBalls, winCheck_playerPaddle,
        winCheck_opponentPaddle, Game.resetBall_additionalBalls, List.filter_nil]
      simp [Game.resetBall_position, Game.resetBall_scale, Game.resetBall_hit,
        Game.resetBall_playerPaddle_hits, Game.resetBall_scores, hrole, hv,
        Paddle.resetHitCombo]
      refine ⟨by omega, ?_⟩
      simpa [Paddle.resetHitCombo] using hv
    · have hv := Game.resetBall_velocity_x_pos
        { g with
          playerScore := g.playerScore + 1
          opponentPaddle := g.opponentPaddle.resetHitCombo }
        vyRand hspeed hbase
      simp only [gr, Game.checkScoring, hs, if_neg hrole, winCheck_ball, winCheck_playerScore,
        winCheck_opponentScore, winCheck_additionalBalls, winCheck_playerPaddle,
        winCheck_opponentPaddle, Game.resetBall_additionalBalls, List.filter_nil]
      simp [Game.resetBall_position, Game.resetBall_scale, Game.resetBall_hit,
        Game.resetBall_opponentPaddle_hits, Game.resetBall_scores, hrole, hv,
        Paddle.resetHitCombo]
      refine ⟨by omega, ?_⟩
      simpa [Paddle.resetHitCombo] using hv
  | right =>
    by_cases hrole : g.role = PlayerRole.host
    · have hv := Game.resetBall_velocity_x_neg
        { g with
          playerScore := g.playerScore + 1
          opponentPaddle := g.opponentPaddle.resetHitCombo }
        vyRand hspeed hbase
      simp only [gr, Game.checkScoring, hs, if_pos hrole, winCheck_ball, winCheck_playerScore,
        winCheck_opponentScore, winCheck_additionalBalls, winCheck_playerPaddle,
        winCheck_opponentPaddle, Game.resetBall_additionalBalls, List.filter_nil]
      simp [Game.resetBall_position, Game.resetBall_scale, Game.resetBall_hit,
        Game.resetBall_opponentPaddle_hits, Game.resetBall_scores, hrole, hv,
        Paddle.resetHitCombo]
      refine ⟨by omega, ?_⟩
      simpa [Paddle.resetHitCombo] using hv
    · have hv := Game.resetBall_velocity_x_neg
        { g with
          opponentScore := g.opponentScore + 1
          playerPaddle := g.playerPaddle.resetHitCombo }
        vyRand hspeed hbase
      simp only [gr, Game.checkScoring, hs, if_neg hrole, winCheck_ball, winCheck_playerScore,
        winCheck_opponentScore, winCheck_additionalBalls, winCheck_playerPaddle,
        winCheck_opponentPaddle, Game.resetBall_additionalBalls, List.filter_nil]
      simp [Game.resetBall_position, Game.resetBall_scale, Game.resetBall_hit,
        Game.resetBall_playerPaddle_hits, Game.resetBall_scores, hrole, hv,
        Paddle.resetHitCombo]
      refine ⟨by omega, ?_⟩
      simpa [Paddle.resetHitCombo] using hv

/-- A game whose main ball has crossed the left scoring boundary. -/
def demoScoringGame : Game :=
  { demoGame with ball := Ball.make ⟨5, 300⟩ 10 ⟨-300, 0⟩ 400 }

/-- Witness for C6: the host game with the main ball behind the left
boundary scores for the opponent and the reset clears the additional
balls and speed scaling. -/
theorem scoring_boundary_effects_witness :
    (demoScoringGame.checkScoring (1 / 2)).additionalBalls = [] ∧
      (demoScoringGame.checkScoring (1 / 2)).ball.speedScaleFactor = 1 ∧
      (demoScoringGame.checkScoring (1 / 2)).ball.hitCounter = 0 :=
  have h := scoring_boundary_effects demoScoringGame (1 / 2) ScoreSide.left
    (by norm_num [demoScoringGame, demoGame, Ball.make, Ball.checkScoringBoundary])
    (by norm_num [demoScoringGame, demoGame, defaultConfig])
    (by norm_num [demoScoringGame, demoGame, Ball.make])
  ⟨h.2.2.2.2.2.2.2.1, h.2.2.2.2.1, h.2.2.2.2.2.1⟩

/-! Claim C9: additional balls never score. -/

/-- Claim C9: additional balls are removed when they cross a scoring
boundary but never change a score: in a tick where the main ball does not
cross, both scores are unchanged and exactly the crossing additional balls
are removed; and in every tick the resulting scores do not depend on the
additional-ball list at all. -/
theorem additional_balls_never_score :
    (∀ (g : Game) (vyRand : ℝ), g.ball.checkScoringBoundary 0 g.fieldWidth = none →
      (g.checkScoring vyRand).playerScore = g.playerScore ∧
        (g.checkScoring vyRand).opponentScore = g.opponentScore ∧
        (g.checkScoring vyRand).additionalBalls = g.additionalBalls.filter
          (fun b => (b.checkScoringBoundary 0 g.fieldWidth).isNone)) ∧
      (∀ (g : Game) (vyRand : ℝ) (l1 l2 : List Ball),
        (Game.checkScoring { g with additionalBalls := l1 } vyRand).playerScore =
          (Game.checkScoring { g with additionalBalls := l2 } vyRand).playerScore ∧
        (Game.checkScoring { g with additionalBalls := l1 } vyRand).opponentScore =
          (Game.checkScoring { g with additionalBalls := l2 } vyRand).opponentScore) := by
  constructor
  · intro g vyRand hnone
    simp [Game.checkScoring, hnone, winCheck_playerScore, winCheck_opponentScore,
      winCheck_additionalBalls]
  · intro g vyRand l1 l2
    rcases hside : g.ball.checkScoringBoundary 0 g.fieldWidth with _ | side
    · simp [Game.checkScoring, hside, winCheck_playerScore, winCheck_opponentScore]
    · cases side <;> by_cases hrole : g.role = PlayerRole.host <;>
        simp [Game.checkScoring, hside, hrole, winCheck_playerScore, winCheck_opponentScore,
          Game.resetBall_scores, Game.resetBall]

/-- Witness for C9 at a concrete input: the main ball sits mid-field while
one additional ball has crossed the left boundary and another has not; the
crossing ball is removed, the other kept, and the scores stay 0. -/
theorem additional_balls_never_score_witness :
    (Game.checkScoring { demoGame with
        additionalBalls := [Ball.make ⟨5, 100⟩ 10 ⟨-300, 0⟩ 400, Ball.make ⟨600, 100⟩ 10 ⟨300, 0⟩ 400] }
      (1 / 2)).playerScore = 0 ∧
      (Game.checkScoring { demoGame with
        additionalBalls := [Ball.make ⟨5, 100⟩ 10 ⟨-300, 0⟩ 400, Ball.make ⟨600, 100⟩ 10 ⟨300, 0⟩ 400] }
      (1 / 2)).additionalBalls = [Ball.make ⟨600, 100⟩ 10 ⟨300, 0⟩ 400] := by
  have h := additional_balls_never_score.1
    { demoGame with
      additionalBalls := [Ball.make ⟨5, 100⟩ 10 ⟨-300, 0⟩ 400, Ball.make ⟨600, 100⟩ 10 ⟨300, 0⟩ 400] }
    (1 / 2)
    (by norm_num [demoGame, Ball.make, Ball.checkScoringBoundary])
  refine ⟨h.1, ?_⟩
  rw [h.2.2]
  norm_num [demoGame, Ball.make, Ball.checkScoringBoundary, List.filter]

/-! Claim C10: the paddle containment invariant. -/

/-- The containment predicate of claim C10: the paddle lies fully inside
its vertical boundaries. -/
def Paddle.contained (p : Paddle) : Prop :=
  p.minY + p.height / 2 ≤ p.position.y ∧ p.position.y ≤ p.maxY - p.height / 2

/-- The claimed invariant, read as a conditional invariant: whenever the
boundaries accommodate the paddle height, the paddle is contained. -/
def Paddle.inv (p : Paddle) : Prop :=
  p.height ≤ p.maxY - p.minY → p.contained

/-- The clamp lands inside the boundaries whenever they accommodate the
height. -/
lemma Paddle.clampY_mem (p : Paddle) (hfit : p.height ≤ p.maxY - p.minY) (y : ℝ) :
    p.minY + p.height / 2 ≤ p.clampY y ∧ p.clampY y ≤ p.maxY - p.height / 2 := by
  refine ⟨le_max_left _ _, max_le (by linarith) (min_le_right _ _)⟩

/-- A paddle whose vertical position was just clamped satisfies the
invariant, whatever it was before. -/
lemma Paddle.inv_of_clampY (p : Paddle) (x y : ℝ) :
    Paddle.inv { p with position := ⟨x, p.clampY y⟩ } := by
  intro hfit
  have h := Paddle.clampY_mem p (by simpa using hfit) y
  simpa [Paddle.contained] using h

/-- Entering the rebound state moves nothing, so it preserves the
invariant. -/
lemma Paddle.startRebound_inv (p : Paddle) (d : ℝ) (h : p.inv) : (p.startRebound d).inv := by
  rw [Paddle.startRebound]
  split_ifs <;> simpa [Paddle.inv, Paddle.contained] using h

/-- `updateMovement` preserves the invariant: it either starts a rebound
(no move) or clamps the new position. -/
lemma Paddle.updateMovement_inv (p : Paddle) (dt : ℝ) (h : p.inv) :
    (p.updateMovement dt).inv := by
  simp only [Paddle.updateMovement]
  split_ifs <;>
    first
      | exact h
      | exact Paddle.startRebound_inv p _ h
      | exact Paddle.inv_of_clampY p _ _

/-- `updateDash` preserves the invariant. -/
lemma Paddle.updateDash_inv (p : Paddle) (dt : ℝ) (h : p.inv) : (p.updateDash dt).inv := by
  simp only [Paddle.updateDash]
  split_ifs <;>
    first
      | simpa [Paddle.inv, Paddle.contained] using h
      | · intro hfit
          have hc := Paddle.clampY_mem { p with dashDuration := p.dashDuration - dt }
            (by simpa using hfit) (p.position.y + Paddle.direction { p with dashDuration := p.dashDuration - dt } * (p.speed * Paddle.dashSpeed) * dt)
          simpa [Paddle.contained, Paddle.clampY] using hc

/-- `updateRebound` preserves the invariant. -/
lemma Paddle.updateRebound_inv (p : Paddle) (dt : ℝ) (h : p.inv) : (p.updateRebound dt).inv := by
  simp only [Paddle.updateRebound]
  split_ifs <;>
    first
      | simpa [Paddle.inv, Paddle.contained] using h
      | · intro hfit
          have hc := Paddle.clampY_mem { p with reboundTime := p.reboundTime + dt }
            (by simpa using hfit) (p.position.y + Paddle.direction { p with reboundTime := p.reboundTime + dt } * (p.speed * Paddle.reboundSpeed) * dt)
          simpa [Paddle.contained, Paddle.clampY] using hc

/-- `updatePaddleSize` preserves the invariant: when the height changes,
the position is re-clamped for the new height. -/
lemma Paddle.updatePaddleSize_inv (p : Paddle) (dt : ℝ) (h : p.inv) :
    (p.updatePaddleSize dt).inv := by
  simp only [Paddle.updatePaddleSize]
  split_ifs <;>
    first
      | exact h
      | exact Paddle.inv_of_clampY _ _ _

/-- `update` preserves the invariant through all of its phases. -/
lemma Paddle.update_inv (p : Paddle) (dt : ℝ) (h : p.inv) : (p.update dt).inv := by
  simp only [Paddle.update]
  have h1 : (if p.isRebounding then p.updateRebound dt
      else if p.isDashing then p.updateDash dt else p.updateMovement dt).inv := by
    split_ifs
    · exact Paddle.updateRebound_inv p dt h
    · exact Paddle.updateDash_inv p dt h
    · exact Paddle.updateMovement_inv p dt h
  generalize (if p.isRebounding then p.updateRebound dt
      else if p.isDashing then p.updateDash dt else p.updateMovement dt) = p1 at h1
  have h2 : (if 0 < p1.dashCooldown then { p1 with dashCooldown := max 0 (p1.dashCooldown - dt) }
      else p1).inv := by
    split_ifs
    · simpa [Paddle.inv, Paddle.contained] using h1
    · exact h1
  generalize (if 0 < p1.dashCooldown then { p1 with dashCooldown := max 0 (p1.dashCooldown - dt) }
      else p1) = p2 at h2
  have h3 := Paddle.updatePaddleSize_inv p2 dt h2
  generalize p2.updatePaddleSize dt = p3 at h3
  split_ifs
  · simpa [Paddle.inv, Paddle.contained] using h3
  · exact h3

/-- `setPosition` establishes the invariant. -/
lemma Paddle.setPosition_inv (p : Paddle) (v : Vec2) : (p.setPosition v).inv :=
  Paddle.inv_of_clampY p v.x v.y

/-- Claim C10: whenever the boundaries accommodate the paddle height, the
containment predicate `minY + height/2 ≤ y ≤ maxY - height/2` is
established by `setPosition` and preserved by `update` (through its
movement, dash, rebound and resize phases), by `setState`, by
`setBoundaries` and by `setHeight`, each of which re-clamps the vertical
position after moving or resizing. -/
theorem paddle_containment_invariant :
    (∀ (p : Paddle) (v : Vec2), (p.setPosition v).inv) ∧
      (∀ (p : Paddle) (dt : ℝ), p.inv → (p.update dt).inv) ∧
      (∀ (p : Paddle) (s : PaddleState), (p.setState s).inv) ∧
      (∀ (p : Paddle) (a b : ℝ), (p.setBoundaries a b).inv) ∧
      (∀ (p : Paddle) (h : ℝ), (p.setHeight h).inv) := by
  refine ⟨Paddle.setPosition_inv, Paddle.update_inv, ?_, ?_, ?_⟩
  · intro p s
    exact Paddle.setPosition_inv _ _
  · intro p a b
    exact Paddle.setPosition_inv _ _
  · intro p h
    exact Paddle.setPosition_inv _ _

/-- Witness for C10: one update tick of a freshly constructed paddle keeps
it inside its boundaries. -/
theorem paddle_containment_invariant_witness :
    Paddle.inv ((Paddle.make ⟨30, 300⟩ 12 80 500 0 600).update (1 / 10)) :=
  paddle_containment_invariant.2.1 (Paddle.make ⟨30, 300⟩ 12 80 500 0 600) (1 / 10)
    (by intro hfit; constructor <;> norm_num [Paddle.make, Paddle.contained])

/-! Claim C1: the client receive policy for a host snapshot. -/

/-- `Game.setState` always writes the snapshot ball position, except on
the path where the snapshot newly enters `COUNTDOWN` (there it returns
after only updating the status). -/
lemma Game.setState_ball_position (g : Game) (s : GameState) (serveLeft : Bool) (vyRand : ℝ)
    (h : ¬(s.status = GameStatus.countdown ∧ g.status ≠ GameStatus.countdown)) :
    (g.setState s serveLeft vyRand).ball.position = s.ball.position := by
  rcases hc : s.countdown with _ | c <;> rcases ha : s.additionalBalls with _ | l <;>
    (simp only [Game.setState, if_neg h, hc, ha]; split_ifs <;> simp [Ball.setState])

/-- `SyncService.start` does not touch the game. -/
lemma Manager.syncStart_game (m : Manager) : m.syncStart.game = m.game := by
  rw [Manager.syncStart]
  split_ifs <;> rfl

/-- Claim C1 (amended): for a client, the `GAME_STATE` receive handler
sets the local ball position to the remote ball position in both branches
of the reconciliation decision: the hard-reconciliation branch applies the
full remote snapshot, and the soft-merge branch also copies the remote
ball (it preserves only the local player paddle), contrary to the claimed
soft-merge behaviour (see `softMerge_overwrites_ball_position`).  The only
exception, excluded by the hypothesis, is a snapshot that newly enters
`COUNTDOWN`, which updates only the status. -/
theorem receive_handler_sets_ball_to_remote (m : Manager) (remote : GameState)
    (serveLeft : Bool) (vyRand : ℝ) (now : ℕ)
    (hhost : m.isHost = false)
    (hcd : remote.status = GameStatus.countdown →
      m.game.status = GameStatus.countdown ∨ m.game.status = GameStatus.waitingForOpponent) :
    (Manager.handleGameState m remote serveLeft vyRand now).game.ball.position =
      remote.ball.position := by
  have hLstat : (Game.getState m.game now).status = m.game.status := rfl
  simp only [Manager.handleGameState, hhost, Bool.false_eq_true, if_false]
  by_cases hw : (Game.getState m.game now).status = GameStatus.waitingForOpponent ∧
      ¬(remote.status = GameStatus.waitingForOpponent)
  · have hnewstatus : ¬(remote.status = GameStatus.countdown ∧
        (m.game.setStatus remote.status).status ≠ GameStatus.countdown) := by
      rintro ⟨h1, h2⟩
      exact h2 (by simp [Game.setStatus, h1])
    by_cases hnr : needsReconciliation (Game.getState m.game now) remote
    · simp only [if_pos hw, if_pos hnr, Manager.syncStart_game]
      rw [Game.setState_ball_position]
      exact hnewstatus
    · simp only [if_pos hw, if_neg hnr, Manager.syncStart_game]
      rw [Game.setState_ball_position]
      exact hnewstatus
  · have hnewstatus : ¬(remote.status = GameStatus.countdown ∧
        m.game.status ≠ GameStatus.countdown) := by
      rintro ⟨h1, h2⟩
      rcases hcd h1 with hgs | hgs
      · exact h2 hgs
      · refine hw ⟨by rw [hLstat, hgs], ?_⟩
        rw [h1]
        simp
    by_cases hnr : needsReconciliation (Game.getState m.game now) remote
    · simp only [if_neg hw, if_pos hnr]
      rw [Game.setState_ball_position]
      exact hnewstatus
    · simp only [if_neg hw, if_neg hnr]
      rw [Game.setState_ball_position]
      exact hnewstatus

/-- The local game of a client that is already playing, with the ball
predicted at the field centre. -/
def demoClientGame : Game :=
  { Game.init PlayerRole.client defaultConfig with status := GameStatus.playing }

/-- The client-side manager owning `demoClientGame`. -/
def demoClientManager : Manager :=
  { game := demoClientGame
    isHost := false
    isNetworkGame := true
    connected := true
    lastProcessedGameControl := none
    isStarting := false
    gameLoopRunning := true
    syncRunning := true
    stateBuffer := [] }

/-- A host snapshot whose ball is 5 px away from the local prediction and
whose paddles agree with the local ones: below the reconciliation
threshold. -/
def demoRemoteState : GameState :=
  { status := GameStatus.playing
    ball := { position := ⟨405, 300⟩, velocity := ⟨200, 100⟩, radius := 10 }
    playerPaddle :=
      { position := ⟨30, 300⟩
        width := 12
        height := 80
        isMovingUp := false
        isMovingDown := false }
    opponentPaddle :=
      { position := ⟨770, 300⟩
        width := 12
        height := 80
        isMovingUp := false
        isMovingDown := false }
    playerScore := 0
    opponentScore := 0
    timestamp := 0
    config := defaultConfig }

/-- Witness for C1: the concrete client manager receiving the concrete
snapshot ends with the remote ball position. -/
theorem receive_handler_sets_ball_to_remote_witness :
    (Manager.handleGameState demoClientManager demoRemoteState true (1 / 2) 0).game.ball.position =
      demoRemoteState.ball.position :=
  receive_handler_sets_ball_to_remote demoClientManager demoRemoteState true (1 / 2) 0 rfl
    (by intro h; exact absurd h (by simp [demoRemoteState]))

/-- Claim C1, counterexample to the claimed soft merge: the local and
remote states differ by 5 px in ball position and 0 px in paddles, well
below the threshold, yet the receive handler moves the local ball to the
remote position 405 instead of leaving it at 400. -/
theorem softMerge_overwrites_ball_position :
    ¬ needsReconciliation (demoClientGame.getState 0) demoRemoteState ∧
      (Manager.handleGameState demoClientManager demoRemoteState true (1 / 2)
          0).game.ball.position.x = 405 ∧
      demoClientManager.game.ball.position.x = 400 := by
  have h5 : Real.sqrt 25 = 5 := by
    rw [show (25 : ℝ) = 5 ^ 2 by norm_num]
    exact Real.sqrt_sq (by norm_num)
  have hlocal : demoClientGame.ball.position = (⟨400, 300⟩ : Vec2) := by
    simp [demoClientGame, Game.init, Game.initGameObjects, Ball.make]
    norm_num
  have hnr : ¬ needsReconciliation (demoClientGame.getState 0) demoRemoteState := by
    simp only [needsReconciliation, reconciliationThreshold, Game.getState, Ball.getState,
      Paddle.getState, demoRemoteState, hlocal]
    simp [demoClientGame, Game.init, Game.initGameObjects, Paddle.make, Ball.make]
    norm_num [h5]
  have hstatus : ¬(demoRemoteState.status = GameStatus.countdown ∧
      demoClientManager.game.status ≠ GameStatus.countdown) := by
    simp [demoRemoteState]
  refine ⟨hnr, ?_, by rw [show demoClientManager.game = demoClientGame from rfl, hlocal]⟩
  have hw : ¬((Game.getState demoClientGame 0).status = GameStatus.waitingForOpponent ∧
      ¬(demoRemoteState.status = GameStatus.waitingForOpponent)) := by
    simp [Game.getState, demoClientGame]
  simp only [Manager.handleGameState, Bool.false_eq_true, if_false,
    show demoClientManager.isHost = false from rfl,
    show demoClientManager.game = demoClientGame from rfl]
  rw [if_neg hw, if_neg hnr]
  rw [Game.setState_ball_position]
  · simp [demoRemoteState]
  · simp [demoRemoteState]

/-! Claim C2: game-control message deduplication. -/

/-- Restarting a game that is already in `COUNTDOWN` re-creates the game
objects (zeroing the ball velocity) and then returns from `startCountdown`
without serving, because of its already-counting guard. -/
lemma restart_in_countdown_ball (g : Game) (serveLeft : Bool) (vyRand : ℝ)
    (h : g.status = GameStatus.countdown) :
    (g.restartGame serveLeft vyRand).ball.velocity.x = 0 := by
  by_cases hr : g.role = PlayerRole.host <;>
    simp [Game.restartGame, Game.cleanup, Game.initGameObjects, Game.startCountdown,
      Ball.make, h, hr]

/-- A connected host manager in the initial waiting state. -/
def demoHostManager : Manager :=
  { game := Game.init PlayerRole.host defaultConfig
    isHost := true
    isNetworkGame := true
    connected := true
    lastProcessedGameControl := none
    isStarting := false
    gameLoopRunning := false
    syncRunning := false
    stateBuffer := [] }

/-- Claim C2, evaluation at the failing input: delivering the identical
`GAME_CONTROL{RESTART, t = 100}` message twice to a connected host is not
a no-op.  The strict `<` timestamp test does not reject the equal-stamped
duplicate, so the second delivery re-runs `restartGame`: the first
delivery leaves the serve velocity (horizontal component -400), the
second zeroes the ball velocity, changing the game state. -/
theorem duplicate_restart_changes_state :
    (demoHostManager.handleGameControl GameControlAction.restart 100 0 true
        (1 / 2)).game.ball.velocity.x = -400 ∧
      ((demoHostManager.handleGameControl GameControlAction.restart 100 0 true
          (1 / 2)).handleGameControl GameControlAction.restart 100 0 true
          (1 / 2)).game.ball.velocity.x = 0 := by
  have hs : Real.sqrt 160000 = 400 := by
    rw [show (160000 : ℝ) = 400 ^ 2 by norm_num]
    exact Real.sqrt_sq (by norm_num)
  have ha : ((Game.init PlayerRole.host defaultConfig).restartGame true
      (1 / 2)).ball.velocity.x = -400 := by
    simp [Game.restartGame, Game.cleanup, Game.initGameObjects, Game.startCountdown,
      Game.setupCountdownFailsafe, Game.resetBall, Game.init, defaultConfig, Ball.make,
      Ball.reset, Ball.resetSpeedScaling, Ball.normalizeVelocity, Paddle.make,
      Paddle.setPosition]
    norm_num [hs]
  have hb : ((Game.init PlayerRole.host defaultConfig).restartGame true
      (1 / 2)).status = GameStatus.countdown := by
    simp [Game.restartGame, Game.cleanup, Game.initGameObjects, Game.startCountdown,
      Game.setupCountdownFailsafe, Game.resetBall, Game.init, defaultConfig, Ball.make,
      Ball.reset, Ball.resetSpeedScaling, Ball.normalizeVelocity, Paddle.make,
      Paddle.setPosition]
  have hm1 : demoHostManager.handleGameControl GameControlAction.restart 100 0 true (1 / 2) =
      { demoHostManager with
        lastProcessedGameControl := some (GameControlAction.restart, 100)
        game := (Game.init PlayerRole.host defaultConfig).restartGame true (1 / 2) } := by
    simp [Manager.handleGameControl, Manager.restartGame, demoHostManager]
  rw [hm1]
  constructor
  · exact ha
  · have hm2 : ({ demoHostManager with
        lastProcessedGameControl := some (GameControlAction.restart, 100)
        game := (Game.init PlayerRole.host defaultConfig).restartGame true
          (1 / 2) } : Manager).handleGameControl GameControlAction.restart 100 0 true (1 / 2) =
        { demoHostManager with
          lastProcessedGameControl := some (GameControlAction.restart, 100)
          game := ((Game.init PlayerRole.host defaultConfig).restartGame true
            (1 / 2)).restartGame true (1 / 2) } := by
      simp [Manager.handleGameControl, Manager.restartGame, demoHostManager]
    rw [hm2]
    exact restart_in_countdown_ball _ _ _ hb

end

end Pong
